import Mathlib

/-!
Shallow embedding of the tool pipeline of the tom-chatbot repository:
the translate-text tool (src/lib/ai/tools/translate-text.ts) and the
summarize-url tool (the file exporting `summarizeUrl`).  The external
collaborators (the `fetch` call and the `generateText` model call) are
abstracted as explicit outcome parameters of the embedded `execute`
functions; everything the tools compute from those outcomes is translated
from the source.  JavaScript's string primitives (`trim`, `toLowerCase`,
`substring(0, n)`, `includes`) are modelled by executable list-based
definitions below; `toLowerCase` is modelled on the ASCII range, which
covers every string the claims are about.
-/

namespace TomChatbot

/-- JS whitespace as trimmed by `String.prototype.trim` (the ASCII
whitespace characters; the Unicode space classes JS also trims do not
occur in this development). -/
def isJsWhitespace (c : Char) : Bool :=
  c == ' ' || c == '\t' || c == '\n' || c == '\r' || c == '\x0b' || c == '\x0c'

/-- JS `s.trim()`: remove leading and trailing whitespace. -/
def jsTrim (s : String) : String :=
  ⟨((s.data.dropWhile isJsWhitespace).reverse.dropWhile isJsWhitespace).reverse⟩

/-- ASCII lowering of one character (`toLowerCase` restricted to ASCII). -/
def asciiLower (c : Char) : Char :=
  if 65 ≤ c.toNat && c.toNat ≤ 90 then Char.ofNat (c.toNat + 32) else c

/-- JS `s.toLowerCase()` on ASCII strings. -/
def jsToLower (s : String) : String :=
  ⟨s.data.map asciiLower⟩

/-- JS `s.substring(0, n)`: the first `min(s.length, n)` characters. -/
def jsTake (s : String) (n : Nat) : String :=
  ⟨s.data.take n⟩

/-- A JavaScript thrown value as the catch blocks discriminate it:
either an `Error` object carrying a message, or any other value. -/
inductive JsError where
  | errorObj (message : String)
  | other
deriving DecidableEq

/-- JS truthiness of a `string | undefined | null` value:
`undefined`/`null` and the empty string are falsy. -/
def jsTruthy : Option String → Bool
  | none => false
  | some s => decide (s ≠ "")

/-- The string value of an optional string (used after a truthiness guard,
where the code has established the value is a non-empty string). -/
def strVal : Option String → String
  | none => ""
  | some s => s

/-- Outcome of the `generateText` promise as destructured by
translate-text's execute: resolution with `{ text, finishReason }`
(the text field may be absent), or a thrown value. -/
inductive TranslateModelOutcome where
  | resolved (text : Option String) (finishReason : String)
  | threw (e : JsError)
deriving DecidableEq

/-- Result object of `translateTextTool.execute`: `{ translatedText }`
or `{ error }` — the source only ever returns one of the two fields. -/
inductive TranslateResult where
  | translatedText (s : String)
  | error (msg : String)
deriving DecidableEq

/-- The prompt built by `translateTextTool.execute`. -/
def translatePrompt (text targetLanguage : String) : String :=
  "Translate the following text to " ++ targetLanguage ++ ": \"" ++ text ++ "\""

/-- Shallow embedding of `translateTextTool.execute`
(src/lib/ai/tools/translate-text.ts).  The `generateText` call is
abstracted as the `outcome` parameter. -/
def translateTextExecute (text targetLanguage : String)
    (outcome : TranslateModelOutcome) : TranslateResult :=
  match outcome with
  | .threw e =>
      .error ("Translation failed due to an internal error: "
        ++ (match e with
            | .errorObj m => m
            | .other => "An unknown error occurred"))
  | .resolved translatedTextResponse finishReason =>
      if (finishReason == "stop") && jsTruthy translatedTextResponse
          && decide (0 < (jsTrim (strVal translatedTextResponse)).length) then
        if (jsToLower (jsTrim (strVal translatedTextResponse)) == jsToLower (jsTrim text))
            && (targetLanguage != "en") then
          .error ("Translation to " ++ targetLanguage
            ++ " might have failed or returned original text. The language might be unsupported or the text too short/ambiguous.")
        else
          .translatedText (jsTrim (strVal translatedTextResponse))
      else
        .error ("Translation failed. AI model did not provide a valid translation. Reason: "
          ++ finishReason)

/-- True exactly on the `{ translatedText }` variant. -/
def isTranslateSuccess : TranslateResult → Bool
  | .translatedText _ => true
  | .error _ => false

/-- A raw input object for the translate tool's zod schema:
each field is present (a string) or absent. -/
structure TranslateRawInput where
  text : Option String
  targetLanguage : Option String
deriving DecidableEq

/-- Shallow embedding of `translateTextTool.parameters.safeParse` success:
`z.object({ text: z.string().min(1), targetLanguage: z.string().min(2) })`
accepts exactly the objects with both string fields present, `text` of
length at least 1 and `targetLanguage` of length at least 2. -/
def translateParamsValid (i : TranslateRawInput) : Bool :=
  match i.text, i.targetLanguage with
  | some t, some l => decide (1 ≤ t.length) && decide (2 ≤ l.length)
  | _, _ => false

/-- A resolved fetch response as `summarizeUrl.execute` consumes it:
the ok flag, the numeric status, the content-type header
(`none` models `headers.get` returning null), and the body text. -/
structure FetchResponse where
  ok : Bool
  status : Nat
  contentType : Option String
  body : String
deriving DecidableEq

/-- Outcome of the `fetch(url)`/`response.text()` step: a resolved
response, or a thrown value (network failure). -/
inductive FetchOutcome where
  | resolved (r : FetchResponse)
  | threw (e : JsError)
deriving DecidableEq

/-- Outcome of the `generateText` call in `summarizeUrl.execute`:
a plain string, a structured result whose `text` field may be absent,
or a thrown value. -/
inductive SummarizeModelOutcome where
  | resolvedString (s : String)
  | resolvedStructured (text : Option String)
  | threw (e : JsError)
deriving DecidableEq

/-- Result object of `summarizeUrl.execute` with type
`{ summary?: string; error?: string }`.  `summary = some s` models the
summary field set to the string `s`; `summary = none` covers both an
absent field and `{ summary: undefined }`. -/
structure SummarizeResult where
  summary : Option String
  error : Option String
deriving DecidableEq

/-- Execution trace of `summarizeUrl.execute`: the returned result plus
the prompt passed to `generateText` (`none` when the model call did not
occur). -/
structure SummarizeTrace where
  result : SummarizeResult
  modelPrompt : Option String
deriving DecidableEq

/-- Character-list automaton for one global pass of the regex replace
`html.replace(/<[^>]*>?/gm, '')`: outside a tag (flag `false`) characters
are kept and `<` opens a tag; inside a tag (flag `true`) every character
up to and including the next `>` is dropped (to the end of the input when
no `>` follows), matching the greedy `[^>]*` followed by the optional `>`. -/
def stripHtmlTagsAux : List Char → Bool → List Char
  | [], _ => []
  | c :: rest, true =>
      if c = '>' then stripHtmlTagsAux rest false else stripHtmlTagsAux rest true
  | c :: rest, false =>
      if c = '<' then stripHtmlTagsAux rest true else c :: stripHtmlTagsAux rest false

/-- Shallow embedding of `stripHtmlTags(html)`:
`html.replace(/<[^>]*>?/gm, '')`. -/
def stripHtmlTags (html : String) : String :=
  ⟨stripHtmlTagsAux html.data false⟩

/-- Whether `pat` occurs at the start of `s`. -/
def charsStartWith : List Char → List Char → Bool
  | _, [] => true
  | [], _ :: _ => false
  | c :: cs, p :: ps => (c == p) && charsStartWith cs ps

/-- Whether `pat` occurs contiguously anywhere in `s`. -/
def charsContain : List Char → List Char → Bool
  | [], pat => charsStartWith [] pat
  | c :: cs, pat => charsStartWith (c :: cs) pat || charsContain cs pat

/-- JS `s.includes(pat)`: substring containment. -/
def jsIncludes (s pat : String) : Bool := charsContain s.data pat.data

/-- The content-type rejection guard of `summarizeUrl.execute`:
`contentType && !contentType.includes('text/html')`. -/
def contentTypeRejected (contentType : Option String) : Bool :=
  jsTruthy contentType && !(jsIncludes (strVal contentType) "text/html")

/-- Shallow embedding of `summarizeUrl.execute`.  The `fetch` and
`generateText` calls are abstracted as outcome parameters; the trace
records the result returned and the prompt the model was invoked with,
when it was invoked.  The branch order follows the source: ok-status
check, then content-type check, then text extraction, then the model
call. -/
def summarizeUrlExecute (fetchOutcome : FetchOutcome)
    (modelOutcome : SummarizeModelOutcome) : SummarizeTrace :=
  match fetchOutcome with
  | .threw e =>
      ⟨⟨none, some (match e with
          | .errorObj m => "Network error when fetching the page: " ++ m
          | .other => "Unknown network error when fetching the page.")⟩, none⟩
  | .resolved response =>
      if !response.ok then
        ⟨⟨none, some ("Failed to fetch page: HTTP status "
            ++ toString response.status)⟩, none⟩
      else if contentTypeRejected response.contentType then
        ⟨⟨none, some ("Content is not HTML (type: " ++ strVal response.contentType
            ++ "). Cannot summarize.")⟩, none⟩
      else
        let textContent := stripHtmlTags response.body
        if jsTrim textContent = "" then
          ⟨⟨none, some "No text content found on the page to summarize."⟩, none⟩
        else
          let prompt := "Summarize the following text:\n\n" ++ jsTake textContent 4000
          match modelOutcome with
          | .threw e =>
              ⟨⟨none, some (match e with
                  | .errorObj m => "AI summarization failed: " ++ m
                  | .other => "Unknown error during AI summarization.")⟩, some prompt⟩
          | .resolvedString s => ⟨⟨some s, none⟩, some prompt⟩
          | .resolvedStructured t => ⟨⟨t, none⟩, some prompt⟩

/-- Exactly one of the two fields of the result object is set. -/
def exactlyOneSet (r : SummarizeResult) : Bool :=
  r.summary.isSome != r.error.isSome

/-- First character of a string, used to separate distinct error messages. -/
def headChar (s : String) : Option Char := s.data.head?

/-- A string whose trim is non-empty is itself non-empty. -/
theorem ne_empty_of_jsTrim_ne_empty (s : String) (h : jsTrim s ≠ "") : s ≠ "" := by
  intro he
  subst he
  exact h rfl

/-- A non-empty string has positive length. -/
theorem length_pos_of_ne_empty (s : String) (h : s ≠ "") : 0 < s.length := by
  cases s with
  | mk data =>
    cases data with
    | nil => exact absurd rfl h
    | cons c cs => exact Nat.succ_pos _

/-- The HTTP-status error message is never equal to a content-type error
message, whatever gets interpolated into either. -/
theorem statusMsg_ne_contentTypeMsg (s t : String) :
    "Failed to fetch page: HTTP status " ++ s
      ≠ "Content is not HTML (type: " ++ t ++ "). Cannot summarize." := by
  intro h
  have hF : headChar ("Failed to fetch page: HTTP status " ++ s) = some 'F' := by
    show (("Failed to fetch page: HTTP status " ++ s).data).head? = some 'F'
    rw [String.data_append]
    rfl
  have hC : headChar ("Content is not HTML (type: " ++ t ++ "). Cannot summarize.")
      = some 'C' := by
    show ((("Content is not HTML (type: " ++ t) ++ "). Cannot summarize.").data).head?
        = some 'C'
    rw [String.data_append, String.data_append]
    rfl
  rw [h, hC] at hF
  exact absurd hF (by decide)

/-- C1 (counterexample): with target language "en", finish reason "stop" and
the model echoing the input " Hello world ", execute returns the trimmed
string "Hello world", which is not the original input string, so the claimed
"translatedText is exactly the original input" fails. -/
theorem translate_en_echo_untrimmed_cex :
    translateTextExecute " Hello world " "en"
        (.resolved (some " Hello world ") "stop")
      = .translatedText "Hello world"
    ∧ TranslateResult.translatedText "Hello world"
        ≠ TranslateResult.translatedText " Hello world " := by decide

/-- C1 (amended): when targetLanguage is "en", the model resolves with finish
reason "stop" echoing the input, and the input has non-whitespace content,
execute returns the trimmed input as translatedText; this equals the original
input exactly when the input carries no leading or trailing whitespace. -/
theorem translate_en_echo_returns_trimmed (text : String) (h : jsTrim text ≠ "") :
    translateTextExecute text "en" (.resolved (some text) "stop")
      = .translatedText (jsTrim text) := by
  have h0 : text ≠ "" := ne_empty_of_jsTrim_ne_empty text h
  have hl : 0 < (jsTrim text).length := length_pos_of_ne_empty _ h
  simp [translateTextExecute, jsTruthy, strVal, decide_eq_true h0, decide_eq_true hl]

/-- C1 (witness): the amended claim instantiated at the repository's unit-test
input "Hello world". -/
theorem translate_en_echo_returns_trimmed_witness :
    translateTextExecute "Hello world" "en"
        (.resolved (some "Hello world") "stop")
      = .translatedText "Hello world" :=
  translate_en_echo_returns_trimmed "Hello world" (by decide)

/-- C4 (counterexample): with the whitespace-only input " " echoed by the
model (finish reason "stop", target "es"), the trimmed output equals the
trimmed input and the target is not "en", yet execute returns the
"Translation failed" error, not the heuristic error the claim requires. -/
theorem translate_heuristic_whitespace_cex :
    translateTextExecute " " "es" (.resolved (some " ") "stop")
      = .error "Translation failed. AI model did not provide a valid translation. Reason: stop"
    ∧ translateTextExecute " " "es" (.resolved (some " ") "stop")
        ≠ .error "Translation to es might have failed or returned original text. The language might be unsupported or the text too short/ambiguous." := by
  decide

/-- C4 (amended): when the model resolves with finish reason "stop", the
trimmed returned text is non-empty and equals the trimmed input
case-insensitively, and the target language is not "en", execute returns the
heuristic-failure error naming the target language. -/
theorem translate_echo_heuristic_error (text targetLanguage r : String)
    (heq : jsToLower (jsTrim r) = jsToLower (jsTrim text))
    (hen : targetLanguage ≠ "en") (hr : jsTrim r ≠ "") :
    translateTextExecute text targetLanguage (.resolved (some r) "stop")
      = .error ("Translation to " ++ targetLanguage
          ++ " might have failed or returned original text. The language might be unsupported or the text too short/ambiguous.") := by
  have h0 : r ≠ "" := ne_empty_of_jsTrim_ne_empty r hr
  have hl : 0 < (jsTrim r).length := length_pos_of_ne_empty _ hr
  simp [translateTextExecute, jsTruthy, strVal, decide_eq_true h0, decide_eq_true hl,
    heq, hen]

/-- C4 (witness): the amended claim instantiated at the unit test's exact-echo
input, target language "es". -/
theorem translate_echo_heuristic_error_witness :
    translateTextExecute "Hello world" "es" (.resolved (some "Hello world") "stop")
      = .error "Translation to es might have failed or returned original text. The language might be unsupported or the text too short/ambiguous." :=
  translate_echo_heuristic_error "Hello world" "es" "Hello world" rfl
    (by decide) (by decide)

/-- C9: the translate tool's schema rejects any input whose targetLanguage is
shorter than 2 characters, whatever the text, and likewise rejects an empty
text string. -/
theorem translate_schema_rejects (text lang lang2 : String) (h : lang.length < 2) :
    translateParamsValid ⟨some text, some lang⟩ = false
    ∧ translateParamsValid ⟨some "", some lang2⟩ = false := by
  constructor
  · have hd : decide (2 ≤ lang.length) = false := decide_eq_false (Nat.not_le.mpr h)
    simp [translateParamsValid, hd]
  · simp [translateParamsValid]

/-- C9 (witness): the schema rejects targetLanguage "e" with the unit test's
text, and rejects the empty text with targetLanguage "fr". -/
theorem translate_schema_rejects_witness :
    translateParamsValid ⟨some "Hello world", some "e"⟩ = false
    ∧ translateParamsValid ⟨some "", some "fr"⟩ = false :=
  translate_schema_rejects "Hello world" "e" "fr" (by decide)

/-- C3 (counterexample): the model resolves with finish reason "stop" and
non-empty text (an exact echo of the input, target "es"), yet the result is
not a success and is not the "Translation failed" error either, refuting the
claimed if-and-only-if characterization. -/
theorem translate_success_iff_cex :
    isTranslateSuccess (translateTextExecute "Hello world" "es"
        (.resolved (some "Hello world") "stop")) = false
    ∧ translateTextExecute "Hello world" "es" (.resolved (some "Hello world") "stop")
        ≠ .error "Translation failed. AI model did not provide a valid translation. Reason: stop" := by
  decide

/-- C3 (amended): for every resolving model call, the result is a success iff
the finish reason is "stop", the returned text is present with non-empty
trim, and the echo heuristic does not fire; and whenever the finish reason is
not "stop" or the returned text is missing or trims to empty, the result is
the "Translation failed" error with the finish reason interpolated. -/
theorem translate_success_characterization (text targetLanguage : String)
    (t : Option String) (fr : String) :
    (isTranslateSuccess (translateTextExecute text targetLanguage (.resolved t fr)) = true
      ↔ (fr = "stop" ∧ jsTruthy t = true ∧ 0 < (jsTrim (strVal t)).length
           ∧ ¬(jsToLower (jsTrim (strVal t)) = jsToLower (jsTrim text)
                ∧ targetLanguage ≠ "en")))
    ∧ (¬(fr = "stop" ∧ jsTruthy t = true ∧ 0 < (jsTrim (strVal t)).length) →
        translateTextExecute text targetLanguage (.resolved t fr)
          = .error ("Translation failed. AI model did not provide a valid translation. Reason: "
              ++ fr)) := by
  by_cases h1 : fr = "stop" <;> by_cases h2 : jsTruthy t = true <;>
    by_cases h3 : 0 < (jsTrim (strVal t)).length <;>
    by_cases h4 : jsToLower (jsTrim (strVal t)) = jsToLower (jsTrim text) <;>
    by_cases h5 : targetLanguage = "en" <;>
    simp_all [translateTextExecute, isTranslateSuccess]

/-- C3 (witness): the amended characterization instantiated at the unit
test's successful translation. -/
theorem translate_success_characterization_witness :
    isTranslateSuccess (translateTextExecute "Hello world" "es"
        (.resolved (some "Hola Mundo") "stop")) = true :=
  (translate_success_characterization "Hello world" "es" (some "Hola Mundo") "stop").1.mpr
    ⟨rfl, by decide, by decide, by decide⟩

/-- C2 (counterexample): a fetch that succeeds with an HTML page whose
stripped text is non-whitespace, combined with a structured model result
whose text field is absent, yields a result with neither the summary field
nor the error field set — refuting "never neither". -/
theorem summarize_missing_text_field_cex :
    (summarizeUrlExecute
        (.resolved ⟨true, 200, some "text/html", "<p>Hello page content</p>"⟩)
        (.resolvedStructured none)).result = ⟨none, none⟩
    ∧ exactlyOneSet ⟨none, none⟩ = false := by decide

/-- C2 (amended): for a fetch that succeeds with an HTML page whose stripped
text is non-whitespace, the result has exactly one of the summary and error
fields set for every outcome of the model call except a structured result
with an absent text field, where the code returns a result with neither
field set. -/
theorem summarize_exactly_one_field (r : FetchResponse) (m : SummarizeModelOutcome)
    (hok : r.ok = true) (hct : contentTypeRejected r.contentType = false)
    (htext : jsTrim (stripHtmlTags r.body) ≠ "")
    (hm : m ≠ .resolvedStructured none) :
    exactlyOneSet (summarizeUrlExecute (.resolved r) m).result = true := by
  cases m with
  | resolvedString s =>
      simp [summarizeUrlExecute, hok, hct, htext, exactlyOneSet]
  | resolvedStructured t =>
      cases t with
      | none => exact absurd rfl hm
      | some s => simp [summarizeUrlExecute, hok, hct, htext, exactlyOneSet]
  | threw e =>
      cases e <;> simp [summarizeUrlExecute, hok, hct, htext, exactlyOneSet]

/-- C2 (witness): the amended claim instantiated at the unit test's page and
a structured model result carrying a summary. -/
theorem summarize_exactly_one_field_witness :
    exactlyOneSet (summarizeUrlExecute
        (.resolved ⟨true, 200, some "text/html", "<p>Hello page content</p>"⟩)
        (.resolvedStructured (some "A summary."))).result = true :=
  summarize_exactly_one_field _ _ rfl (by decide) (by decide) (by decide)

/-- C5: a fetch that succeeds with acceptable content type but whose body
strips to whitespace-only text yields exactly the "No text content" error,
and the model call does not occur (no prompt is recorded). -/
theorem summarize_empty_text_skips_model (r : FetchResponse)
    (m : SummarizeModelOutcome) (hok : r.ok = true)
    (hct : contentTypeRejected r.contentType = false)
    (hempty : jsTrim (stripHtmlTags r.body) = "") :
    summarizeUrlExecute (.resolved r) m
      = ⟨⟨none, some "No text content found on the page to summarize."⟩, none⟩ := by
  simp [summarizeUrlExecute, hok, hct, hempty]

/-- C5 (witness): instantiated at a comments-only HTML body; the model
outcome supplied is irrelevant and indeed unused. -/
theorem summarize_empty_text_skips_model_witness :
    summarizeUrlExecute
        (.resolved ⟨true, 200, some "text/html",
          "<html><head></head><body><!-- Just comments --></body></html>"⟩)
        (.resolvedStructured (some "never used"))
      = ⟨⟨none, some "No text content found on the page to summarize."⟩, none⟩ :=
  summarize_empty_text_skips_model _ _ rfl (by decide) (by decide)

/-- C6: an ok response carrying a non-HTML content type yields exactly the
content-type error with the type interpolated, and the model is never
invoked. -/
theorem summarize_content_type_error (r : FetchResponse)
    (m : SummarizeModelOutcome) (ct : String) (hok : r.ok = true)
    (hct : r.contentType = some ct) (hne : ct ≠ "")
    (hhtml : jsIncludes ct "text/html" = false) :
    summarizeUrlExecute (.resolved r) m
      = ⟨⟨none, some ("Content is not HTML (type: " ++ ct ++ "). Cannot summarize.")⟩,
         none⟩ := by
  simp [summarizeUrlExecute, hok, contentTypeRejected, hct, jsTruthy, strVal,
    decide_eq_true hne, hhtml]

/-- C6 (witness): instantiated at the unit test's application/json response. -/
theorem summarize_content_type_error_witness :
    summarizeUrlExecute
        (.resolved ⟨true, 200, some "application/json", "not html"⟩)
        (.resolvedStructured (some "never used"))
      = ⟨⟨none, some "Content is not HTML (type: application/json). Cannot summarize."⟩,
         none⟩ :=
  summarize_content_type_error _ _ "application/json" rfl rfl (by decide) (by decide)

/-- C7: a resolved fetch with ok false yields exactly the HTTP-status error
with the numeric status interpolated, and the model is never invoked. -/
theorem summarize_http_status_error (r : FetchResponse)
    (m : SummarizeModelOutcome) (hok : r.ok = false) :
    summarizeUrlExecute (.resolved r) m
      = ⟨⟨none, some ("Failed to fetch page: HTTP status " ++ toString r.status)⟩,
         none⟩ := by
  simp [summarizeUrlExecute, hok]

/-- C7 (witness): instantiated at the unit test's 404 response. -/
theorem summarize_http_status_error_witness :
    summarizeUrlExecute (.resolved ⟨false, 404, none, ""⟩)
        (.resolvedStructured (some "never used"))
      = ⟨⟨none, some "Failed to fetch page: HTTP status 404"⟩, none⟩ :=
  (summarize_http_status_error ⟨false, 404, none, ""⟩
      (.resolvedStructured (some "never used")) rfl).trans (by decide)

/-- C8: whenever the summarizer invokes the model, the prompt is the fixed
header "Summarize the following text:" with two newlines, followed by the
stripped page text truncated to its first 4000 characters (the whole text
when shorter). -/
theorem summarize_prompt_truncation (r : FetchResponse)
    (m : SummarizeModelOutcome)
    (h : (summarizeUrlExecute (.resolved r) m).modelPrompt ≠ none) :
    (summarizeUrlExecute (.resolved r) m).modelPrompt
      = some ("Summarize the following text:\n\n"
          ++ jsTake (stripHtmlTags r.body) 4000) := by
  by_cases hok : r.ok = true
  · by_cases hct : contentTypeRejected r.contentType = true
    · exact absurd (by simp [summarizeUrlExecute, hok, hct]) h
    · simp only [Bool.not_eq_true] at hct
      by_cases hempty : jsTrim (stripHtmlTags r.body) = ""
      · exact absurd (by simp [summarizeUrlExecute, hok, hct, hempty]) h
      · cases m <;> simp [summarizeUrlExecute, hok, hct, hempty]
  · simp only [Bool.not_eq_true] at hok
    exact absurd (by simp [summarizeUrlExecute, hok]) h

/-- C8 (witness): instantiated at the unit test's page, whose stripped text
is shorter than 4000 characters and therefore appears whole. -/
theorem summarize_prompt_truncation_witness :
    (summarizeUrlExecute
        (.resolved ⟨true, 200, some "text/html",
          "<html><body>Some text</body></html>"⟩)
        (.resolvedString "A summary.")).modelPrompt
      = some "Summarize the following text:\n\nSome text" :=
  (summarize_prompt_truncation _ _ (by decide)).trans (by decide)

/-- C10: for a resolved non-ok response the result is the HTTP-status error
whatever the content-type header holds, and it is never a content-type
error; hence the content-type error can only arise from an ok response. -/
theorem summarize_status_precedes_content_type (r : FetchResponse)
    (m : SummarizeModelOutcome) (ct : String) (hok : r.ok = false) :
    (summarizeUrlExecute (.resolved r) m).result
        = ⟨none, some ("Failed to fetch page: HTTP status " ++ toString r.status)⟩
    ∧ (summarizeUrlExecute (.resolved r) m).result.error
        ≠ some ("Content is not HTML (type: " ++ ct ++ "). Cannot summarize.") := by
  have h1 : summarizeUrlExecute (.resolved r) m
      = ⟨⟨none, some ("Failed to fetch page: HTTP status " ++ toString r.status)⟩,
         none⟩ := by
    simp [summarizeUrlExecute, hok]
  refine ⟨by rw [h1], ?_⟩
  rw [h1]
  intro hc
  exact statusMsg_ne_contentTypeMsg (toString r.status) ct (Option.some.inj hc)

/-- C10 (witness): a 500 response whose header says application/json still
produces the HTTP-status error and not the content-type error. -/
theorem summarize_status_precedes_content_type_witness :
    (summarizeUrlExecute
        (.resolved ⟨false, 500, some "application/json", "not html"⟩)
        (.resolvedString "never used")).result
        = ⟨none, some "Failed to fetch page: HTTP status 500"⟩
    ∧ (summarizeUrlExecute
        (.resolved ⟨false, 500, some "application/json", "not html"⟩)
        (.resolvedString "never used")).result.error
        ≠ some "Content is not HTML (type: application/json). Cannot summarize." := by
  have h := summarize_status_precedes_content_type
    ⟨false, 500, some "application/json", "not html"⟩
    (.resolvedString "never used") "application/json" rfl
  exact ⟨h.1.trans (by decide), h.2⟩

end TomChatbot
